import Mathlib

/-!
Verification of the `FDIBridge` request-forwarding lambda
(`src/bridge_lambda.py`) against its specification.

The Python module is shallowly embedded below.  Ambient process state
(the `SQS_QUEUE_URL` environment variable and the boto3 SQS transport)
is passed explicitly:

* the environment is an `Option String` (the variable's value, or
  `none` when unset).  The Python dataclass field default
  `sqs_queue_url: str = os.environ.get('SQS_QUEUE_URL', '')` is
  evaluated when the class body executes, i.e. at module import, so the
  embedding distinguishes the environment snapshot at import time from
  the snapshot at invocation time and threads both through `handler`;
* the boto3 client is a record holding the transport's behaviour: for
  each queue URL and serialized message body, either a provider-assigned
  message id, a `botocore` `ClientError` carrying its error text, or
  some other exception (which the Python code does not catch);
* uncaught Python exceptions are modelled with `Except String`.
-/

namespace FDIBridge

/-- A JSON value as it occurs in this program: every dictionary the code
serializes maps string keys to either a string or `None`. -/
inductive JVal where
  | null : JVal
  | str : String → JVal
deriving DecidableEq, Repr

/-- Lowercase hexadecimal digit, as produced by Python's `json` encoder. -/
def hexDigit (n : Nat) : Char :=
  if n < 10 then Char.ofNat (48 + n) else Char.ofNat (87 + n)

/-- Four-digit lowercase hexadecimal rendering used in `\uXXXX` escapes. -/
def hex4 (n : Nat) : String :=
  String.mk [hexDigit (n / 4096 % 16), hexDigit (n / 256 % 16),
             hexDigit (n / 16 % 16), hexDigit (n % 16)]

/-- Escape of one character inside a JSON string literal, following
Python's `json.dumps` with its default `ensure_ascii=True`: quote,
backslash and the usual control-character shorthands are escaped, other
control characters and all non-ASCII characters become `\uXXXX`
(a surrogate pair beyond the basic multilingual plane). -/
def jsonEscapeChar (c : Char) : String :=
  if c = Char.ofNat 34 then "\\\""
  else if c = Char.ofNat 92 then "\\\\"
  else if c = Char.ofNat 10 then "\\n"
  else if c = Char.ofNat 13 then "\\r"
  else if c = Char.ofNat 9 then "\\t"
  else if c = Char.ofNat 8 then "\\b"
  else if c = Char.ofNat 12 then "\\f"
  else if c.toNat < 32 ∨ c.toNat > 126 then
    if c.toNat < 65536 then "\\u" ++ hex4 c.toNat
    else
      let v := c.toNat - 65536
      "\\u" ++ hex4 (55296 + v / 1024) ++ "\\u" ++ hex4 (56320 + v % 1024)
  else String.singleton c

/-- JSON rendering of a string, with surrounding quotes. -/
def dumpsString (s : String) : String :=
  "\"" ++ String.join (s.toList.map jsonEscapeChar) ++ "\""

/-- JSON rendering of one value. -/
def dumpsJVal : JVal → String
  | JVal.null => "null"
  | JVal.str s => dumpsString s

/-- Python `json.dumps` on a (flat, insertion-ordered) dictionary, with
the default separators `", "` and `": "`. -/
def dumpsObj (fs : List (String × JVal)) : String :=
  "\x7b" ++ String.intercalate ", "
    (fs.map (fun kv => dumpsString kv.1 ++ ": " ++ dumpsJVal kv.2)) ++ "\x7d"

/-- `json.dumps` on a string-to-string dictionary (the forwarded query
parameters). -/
def dumpsStrDict (m : List (String × String)) : String :=
  dumpsObj (m.map (fun kv => (kv.1, JVal.str kv.2)))

/-- Outcome of one `send_message` call of the underlying transport:
success with a provider-assigned id, a `botocore.exceptions.ClientError`
with its error text `str(e)`, or any other exception (not caught by the
code). -/
inductive SendOutcome where
  | ok : String → SendOutcome
  | clientError : String → SendOutcome
  | otherError : String → SendOutcome
deriving DecidableEq, Repr

/-- The boto3 SQS client, reduced to its observable behaviour: the
outcome of `send_message` for a given `QueueUrl` and `MessageBody`. -/
structure SqsClient where
  send_message : String → String → SendOutcome

/-- The value found under the `queryStringParameters` key of an ALB
event: either JSON null or a string-to-string mapping. -/
inductive QSPValue where
  | null : QSPValue
  | dict : List (String × String) → QSPValue
deriving DecidableEq, Repr

/-- Python truthiness of such a value: `None` and the empty dict are
falsy, a non-empty dict is truthy. -/
def QSPValue.truthy : QSPValue → Bool
  | QSPValue.null => false
  | QSPValue.dict m => !m.isEmpty

/-- An ALB event: the optional `queryStringParameters` field, plus all
the other fields of the event object, modelled opaquely. -/
structure Event where
  queryStringParameters : Option QSPValue
  otherFields : List (String × String)
deriving DecidableEq, Repr

/-- `parse_query_parameters`: the Python body is
`event.get('queryStringParameters', {}) or {}` — the field's value when
present, defaulting to `{}` when absent, with `or {}` replacing any
falsy value by the empty dict. -/
def parse_query_parameters (event : Event) : List (String × String) :=
  match event.queryStringParameters.getD (QSPValue.dict []) with
  | QSPValue.null => []
  | QSPValue.dict m => if m.isEmpty then [] else m

/-- `Config.sqs_queue_url`: the dataclass field default
`os.environ.get('SQS_QUEUE_URL', '')`, evaluated once when the class
body executes at module import — hence a function of the environment
snapshot at import time. -/
def Config.sqs_queue_url (env_at_import : Option String) : String :=
  env_at_import.getD ""

/-- `send_to_sqs`: one `send_message` call inside `try`; `ClientError`
is caught and turned into a failure triple, any other exception
propagates (the `Except.error` case). -/
def send_to_sqs (sqs_client : SqsClient) (queue_url : String)
    (message : List (String × String)) :
    Except String (Bool × Option String × Option String) :=
  match sqs_client.send_message queue_url (dumpsStrDict message) with
  | SendOutcome.ok message_id => Except.ok (true, some message_id, none)
  | SendOutcome.clientError e =>
      Except.ok (false, none, some ("Failed to send message to SQS: " ++ e))
  | SendOutcome.otherError e => Except.error e

/-- `send_to_sqs_temp`: the disabled duplicate of `send_to_sqs`, whose
live body is the single statement `return True, 'MessageId', None`; the
network call is commented out, so no exception is possible and the
client is never consulted. -/
def send_to_sqs_temp (sqs_client : SqsClient) (queue_url : String)
    (message : List (String × String)) :
    Bool × Option String × Option String :=
  (true, some "MessageId", none)

/-- The ALB response dictionary built by `create_response`. -/
structure HttpResponse where
  statusCode : Int
  headers : List (String × String)
  body : String
deriving DecidableEq, Repr

/-- `create_response`: status code, the fixed `Content-Type` header, and
the JSON-serialized body. -/
def create_response (status_code : Int) (body : List (String × JVal)) :
    HttpResponse :=
  { statusCode := status_code
    headers := [("Content-Type", "application/json")]
    body := dumpsObj body }

/-- The fixed success message of the 200 branch of `handler`. -/
def successMessage : String :=
  "Weekly summary draft and MyChart message draft successfully requested. Please allow 10-15 seconds delay and move to Chart Review and look for the drafts."

/-- The Python value `error` in the failure branch is `Optional[str]`;
`json.dumps` renders `None` as JSON null. -/
def JVal.ofOptStr : Option String → JVal
  | none => JVal.null
  | some s => JVal.str s

/-- `handler`: builds `Config()` (whose field holds the import-time
environment value), fails fast on an empty queue URL, otherwise parses
the query parameters, performs the one `send_to_sqs` call and maps its
outcome to a 200 or 500 response.  `env_at_call`, the environment
snapshot at invocation time, is threaded through to state claims about
when the configuration is read; the code never consults it. -/
def handler (env_at_import env_at_call : Option String)
    (sqs_client : SqsClient) (event : Event) :
    Except String HttpResponse :=
  let config_sqs_queue_url := Config.sqs_queue_url env_at_import
  if config_sqs_queue_url = "" then
    Except.ok (create_response 500
      [("message", JVal.str "Missing SQS queue URL configuration")])
  else
    let query_params := parse_query_parameters event
    match send_to_sqs sqs_client config_sqs_queue_url query_params with
    | Except.error e => Except.error e
    | Except.ok (success, _message_id, error) =>
        if success then
          Except.ok (create_response 200 [("message", JVal.str successMessage)])
        else
          Except.ok (create_response 500 [("message", JVal.ofOptStr error)])

/-- A client whose transport always succeeds, for concrete evaluations. -/
def okClient : SqsClient :=
  ⟨fun _ _ => SendOutcome.ok "mid-1"⟩

/-- A client whose transport always reports a `ClientError`. -/
def failClient : SqsClient :=
  ⟨fun _ _ => SendOutcome.clientError "boom"⟩

/-- A client whose transport always raises a non-`ClientError`
exception. -/
def exnClient : SqsClient :=
  ⟨fun _ _ => SendOutcome.otherError "bang"⟩

/-- An event with no `queryStringParameters` field and no other
fields. -/
def emptyEvent : Event :=
  ⟨none, []⟩

/-- The event of the spec's success scenario:
`⦃"queryStringParameters": ⦃"a": "1", "b": "2"⦄⦄`. -/
def scenarioEvent : Event :=
  ⟨some (QSPValue.dict [("a", "1"), ("b", "2")]), []⟩

deriving instance DecidableEq for Except

/-- Claim C1: with an empty (or unset, hence defaulted to empty) queue
address, `handler` returns the fixed 500 response whose body is
`⦃"message": "Missing SQS queue URL configuration"⦄`, and the SQS
client is never consulted — the result is the same for every client, so
no send is attempted. -/
theorem claim_C1_missing_config_fail_fast
    (env_at_import env_at_call : Option String) (sqs_client : SqsClient)
    (event : Event) (h : Config.sqs_queue_url env_at_import = "") :
    handler env_at_import env_at_call sqs_client event =
      Except.ok (create_response 500
        [("message", JVal.str "Missing SQS queue URL configuration")]) ∧
    (create_response 500
        [("message", JVal.str "Missing SQS queue URL configuration")]).body =
      "\x7b\"message\": \"Missing SQS queue URL configuration\"\x7d" ∧
    ∀ other : SqsClient,
      handler env_at_import env_at_call other event =
        handler env_at_import env_at_call sqs_client event := by
  refine ⟨by simp [handler, h], by decide, fun other => by simp [handler, h]⟩

/-- Claim C1, witness at a concrete input: unset environment, a client
that would succeed, the empty event. -/
theorem claim_C1_missing_config_fail_fast_witness :
    handler none none okClient emptyEvent =
      Except.ok (create_response 500
        [("message", JVal.str "Missing SQS queue URL configuration")]) ∧
    (create_response 500
        [("message", JVal.str "Missing SQS queue URL configuration")]).body =
      "\x7b\"message\": \"Missing SQS queue URL configuration\"\x7d" ∧
    ∀ other : SqsClient,
      handler none none other emptyEvent =
        handler none none okClient emptyEvent :=
  claim_C1_missing_config_fail_fast none none okClient emptyEvent rfl

/-- Claim C2: with a non-empty queue address, if the transport reports a
`ClientError` with text `errText`, `handler` returns a 500 response
whose body message is `"Failed to send message to SQS: " ++ errText`. -/
theorem claim_C2_send_failure_maps_to_500
    (env_at_import env_at_call : Option String) (sqs_client : SqsClient)
    (event : Event) (errText : String)
    (hurl : Config.sqs_queue_url env_at_import ≠ "")
    (hfail : sqs_client.send_message (Config.sqs_queue_url env_at_import)
        (dumpsStrDict (parse_query_parameters event)) =
      SendOutcome.clientError errText) :
    handler env_at_import env_at_call sqs_client event =
      Except.ok (create_response 500
        [("message",
          JVal.str ("Failed to send message to SQS: " ++ errText))]) := by
  simp [handler, send_to_sqs, hurl, hfail, JVal.ofOptStr]

/-- Claim C2, witness: queue URL `"u"`, a client failing with text
`"boom"`, the empty event. -/
theorem claim_C2_send_failure_maps_to_500_witness :
    handler (some "u") none failClient emptyEvent =
      Except.ok (create_response 500
        [("message",
          JVal.str ("Failed to send message to SQS: " ++ "boom"))]) :=
  claim_C2_send_failure_maps_to_500 (some "u") none failClient emptyEvent
    "boom" (by decide) rfl

/-- Claim C3: with a non-empty queue address, if the transport succeeds,
`handler` returns the 200 response carrying the fixed success message —
the right-hand side does not depend on the event, so the response is
independent of the query parameters supplied. -/
theorem claim_C3_send_success_maps_to_200
    (env_at_import env_at_call : Option String) (sqs_client : SqsClient)
    (event : Event) (message_id : String)
    (hurl : Config.sqs_queue_url env_at_import ≠ "")
    (hok : sqs_client.send_message (Config.sqs_queue_url env_at_import)
        (dumpsStrDict (parse_query_parameters event)) =
      SendOutcome.ok message_id) :
    handler env_at_import env_at_call sqs_client event =
      Except.ok (create_response 200
        [("message", JVal.str successMessage)]) := by
  simp [handler, send_to_sqs, hurl, hok]

/-- Claim C3, witness: the spec's scenario event with parameters
`a = 1`, `b = 2`, a valid queue address and a succeeding client. -/
theorem claim_C3_send_success_maps_to_200_witness :
    handler (some "u") none okClient scenarioEvent =
      Except.ok (create_response 200
        [("message", JVal.str successMessage)]) :=
  claim_C3_send_success_maps_to_200 (some "u") none okClient scenarioEvent
    "mid-1" (by decide) rfl

/-- Claim C4: when `queryStringParameters` is missing or an empty
mapping, the payload handed to the send is the empty mapping and its
serialization (the `MessageBody` that `send_to_sqs` computes with
`dumpsStrDict`) is exactly the two-character text `\x7b\x7d`. -/
theorem claim_C4_empty_or_missing_params_forward_empty
    (event : Event)
    (h : event.queryStringParameters = none ∨
         event.queryStringParameters = some (QSPValue.dict [])) :
    parse_query_parameters event = [] ∧
    dumpsStrDict (parse_query_parameters event) = "\x7b\x7d" := by
  have hp : parse_query_parameters event = [] := by
    rcases h with h | h <;> simp [parse_query_parameters, h]
  exact ⟨hp, by rw [hp]; rfl⟩

/-- Claim C4, witness at the event with no `queryStringParameters`
field. -/
theorem claim_C4_empty_or_missing_params_forward_empty_witness :
    parse_query_parameters emptyEvent = [] ∧
    dumpsStrDict (parse_query_parameters emptyEvent) = "\x7b\x7d" :=
  claim_C4_empty_or_missing_params_forward_empty emptyEvent (Or.inl rfl)

/-- Claim C5, counterexample: the queue address is NOT read per
invocation.  With the variable set to `"u"` at module import but unset
at call time, `handler` behaves differently from a run in which the
variable is unset at both times — had the address been read at the time
of the call, the two runs would coincide (both would see an empty
address).  Concretely the left run returns the 200 success response and
the right run the 500 missing-configuration response. -/
theorem claim_C5_counterexample_read_at_import_not_per_call :
    ¬ (handler (some "u") none okClient emptyEvent =
       handler none none okClient emptyEvent) := by
  decide

/-- Claim C5, amended: the queue address used by `handler` is the value
the environment variable had when the module was imported (the
dataclass field default is evaluated at class-definition time); the
environment's value at the time of the call is never consulted, so the
configuration is immutable for the lifetime of the call — and indeed of
the process. -/
theorem claim_C5_config_read_once_at_import
    (env_at_import env_at_call env_at_call_alt : Option String)
    (sqs_client : SqsClient) (event : Event) :
    handler env_at_import env_at_call sqs_client event =
      handler env_at_import env_at_call_alt sqs_client event := rfl

/-- Claim C6: every response `handler` actually returns (on the
configuration-error, send-failure and success paths alike) carries the
fixed JSON content-type header, a status code of 200 or 500 (an
integer), and a body that is the JSON serialization of an object
`⦃"message": <string>⦄`. -/
theorem claim_C6_response_shape
    (env_at_import env_at_call : Option String) (sqs_client : SqsClient)
    (event : Event) (r : HttpResponse)
    (h : handler env_at_import env_at_call sqs_client event =
      Except.ok r) :
    (r.statusCode = 200 ∨ r.statusCode = 500) ∧
    r.headers = [("Content-Type", "application/json")] ∧
    ∃ s : String, r.body = dumpsObj [("message", JVal.str s)] := by
  by_cases hurl : Config.sqs_queue_url env_at_import = ""
  · simp only [handler, if_pos hurl, Except.ok.injEq] at h
    subst h
    exact ⟨Or.inr rfl, rfl, "Missing SQS queue URL configuration", rfl⟩
  · rcases houtcome : sqs_client.send_message (Config.sqs_queue_url env_at_import)
        (dumpsStrDict (parse_query_parameters event)) with mid | e | e
    · simp only [handler, if_neg hurl, send_to_sqs, houtcome,
        if_pos, Except.ok.injEq] at h
      subst h
      exact ⟨Or.inl rfl, rfl, successMessage, rfl⟩
    · simp only [handler, if_neg hurl, send_to_sqs, houtcome,
        Bool.false_eq_true, if_false, Except.ok.injEq] at h
      subst h
      exact ⟨Or.inr rfl, rfl, "Failed to send message to SQS: " ++ e, rfl⟩
    · simp only [handler, if_neg hurl, send_to_sqs, houtcome] at h
      exact absurd h (by simp)

/-- Claim C6, witness on the success path with a valid queue address. -/
theorem claim_C6_response_shape_witness :
    ((create_response 200
        [("message", JVal.str successMessage)]).statusCode = 200 ∨
     (create_response 200
        [("message", JVal.str successMessage)]).statusCode = 500) ∧
    (create_response 200
        [("message", JVal.str successMessage)]).headers =
      [("Content-Type", "application/json")] ∧
    ∃ s : String, (create_response 200
        [("message", JVal.str successMessage)]).body =
      dumpsObj [("message", JVal.str s)] :=
  claim_C6_response_shape (some "u") none okClient emptyEvent
    (create_response 200 [("message", JVal.str successMessage)]) rfl

/-- Claim C7: `send_to_sqs` yields a failure triple exactly when the
transport reports a `ClientError`; its outcome is determined by the one
transport response at the single `(queue_url, body)` point it queries
(no local retry can observe anything else); and a transport exception
other than `ClientError` is not handled — it propagates out of
`handler`. -/
theorem claim_C7_failure_iff_clienterror_no_retry
    (sqs_client : SqsClient) (queue_url : String)
    (message : List (String × String)) :
    ((∃ e, sqs_client.send_message queue_url (dumpsStrDict message) =
        SendOutcome.clientError e) ↔
      ∃ err, send_to_sqs sqs_client queue_url message =
        Except.ok (false, none, some err)) ∧
    (∀ other : SqsClient,
      other.send_message queue_url (dumpsStrDict message) =
        sqs_client.send_message queue_url (dumpsStrDict message) →
      send_to_sqs other queue_url message =
        send_to_sqs sqs_client queue_url message) ∧
    (∀ (env_at_import env_at_call : Option String) (event : Event)
        (ex : String),
      Config.sqs_queue_url env_at_import = queue_url →
      queue_url ≠ "" →
      parse_query_parameters event = message →
      sqs_client.send_message queue_url (dumpsStrDict message) =
        SendOutcome.otherError ex →
      handler env_at_import env_at_call sqs_client event =
        Except.error ex) := by
  refine ⟨?_, ?_, ?_⟩
  · rcases houtcome : sqs_client.send_message queue_url (dumpsStrDict message)
      with mid | e | e <;> simp [send_to_sqs, houtcome]
  · intro other hother
    simp [send_to_sqs, hother]
  · intro env_at_import env_at_call event ex hq hne hm hout
    simp [handler, send_to_sqs, hq, hne, hm, hout]

/-- Claim C7, witness for the propagation conjunct: a transport raising
a non-`ClientError` exception `"bang"` makes `handler` end in that
uncaught exception. -/
theorem claim_C7_failure_iff_clienterror_no_retry_witness :
    handler (some "u") none exnClient emptyEvent = Except.error "bang" :=
  (claim_C7_failure_iff_clienterror_no_retry exnClient "u" []).2.2
    (some "u") none emptyEvent "bang" rfl (by decide) rfl rfl

/-- Claim C8: two events agreeing on `queryStringParameters` yield the
same parsed mapping, the same serialized payload, and the same response
from `handler` — no other event field is consumed. -/
theorem claim_C8_only_query_params_consumed
    (env_at_import env_at_call : Option String) (sqs_client : SqsClient)
    (event1 event2 : Event)
    (h : event1.queryStringParameters = event2.queryStringParameters) :
    parse_query_parameters event1 = parse_query_parameters event2 ∧
    dumpsStrDict (parse_query_parameters event1) =
      dumpsStrDict (parse_query_parameters event2) ∧
    handler env_at_import env_at_call sqs_client event1 =
      handler env_at_import env_at_call sqs_client event2 := by
  have hp : parse_query_parameters event1 = parse_query_parameters event2 := by
    simp [parse_query_parameters, h]
  exact ⟨hp, by rw [hp], by simp [handler, hp]⟩

/-- Claim C8, witness: two events sharing the same query parameters but
differing in their other fields. -/
theorem claim_C8_only_query_params_consumed_witness :
    parse_query_parameters ⟨some (QSPValue.dict [("a", "1")]), [("path", "/x")]⟩ =
      parse_query_parameters ⟨some (QSPValue.dict [("a", "1")]), []⟩ ∧
    dumpsStrDict (parse_query_parameters
        ⟨some (QSPValue.dict [("a", "1")]), [("path", "/x")]⟩) =
      dumpsStrDict (parse_query_parameters
        ⟨some (QSPValue.dict [("a", "1")]), []⟩) ∧
    handler (some "u") none okClient
        ⟨some (QSPValue.dict [("a", "1")]), [("path", "/x")]⟩ =
      handler (some "u") none okClient
        ⟨some (QSPValue.dict [("a", "1")]), []⟩ :=
  claim_C8_only_query_params_consumed (some "u") none okClient
    ⟨some (QSPValue.dict [("a", "1")]), [("path", "/x")]⟩
    ⟨some (QSPValue.dict [("a", "1")]), []⟩ rfl

/-- Claim C9: the disabled stub `send_to_sqs_temp` returns the success
triple `(true, some "MessageId", none)` for every client, queue address
and message — in particular its result never depends on the client, so
no network call is made.  Moreover `handler` does not invoke it: with a
client whose transport fails, `handler` returns the 500 failure
response, which the always-successful stub could never produce. -/
theorem claim_C9_temp_stub_succeeds_and_is_unused
    (sqs_client other : SqsClient) (queue_url queue_url2 : String)
    (message message2 : List (String × String)) :
    send_to_sqs_temp sqs_client queue_url message =
      (true, some "MessageId", none) ∧
    send_to_sqs_temp sqs_client queue_url message =
      send_to_sqs_temp other queue_url2 message2 ∧
    handler (some "u") none failClient emptyEvent =
      Except.ok (create_response 500
        [("message", JVal.str "Failed to send message to SQS: boom")]) :=
  ⟨rfl, rfl, by decide⟩

/-- Claim C10: when the `queryStringParameters` field is present but
holds a falsy value — JSON null, or an empty mapping — the `or ⦃⦄`
fallback makes `parse_query_parameters` return the empty mapping, so
the forwarded payload is a mapping (as its Lean type already shows). -/
theorem claim_C10_falsy_params_yield_empty_mapping
    (event : Event) (v : QSPValue)
    (hpresent : event.queryStringParameters = some v)
    (hfalsy : v.truthy = false) :
    parse_query_parameters event = [] := by
  cases v with
  | null => simp [parse_query_parameters, hpresent]
  | dict m =>
      simp [QSPValue.truthy] at hfalsy
      simp [parse_query_parameters, hpresent, hfalsy]

/-- Claim C10, witness: the field present and null. -/
theorem claim_C10_falsy_params_yield_empty_mapping_witness :
    parse_query_parameters ⟨some QSPValue.null, []⟩ = [] :=
  claim_C10_falsy_params_yield_empty_mapping ⟨some QSPValue.null, []⟩
    QSPValue.null rfl rfl

end FDIBridge
